import Mathlib

/-!
# Verification of the HPSC messaging stack (ISI-apex/linux-hpsc)

Shallow embedding of the HPSC notification bus, system-message layer,
shared-memory transport, mailbox controller startup path, userspace
mailbox client, and pretimeout monitor, translated from the C sources
under `drivers/soc/hpsc`, `drivers/mailbox` and the shared-memory
transport module.  Machine integers are modelled as `Nat` (all the
values involved are non-negative registers, bytes, and the
positive-valued notifier return codes); C `int` return values that may
be negative errno codes are modelled as `Int`.
-/

/-! ## Constants from include/linux/notifier.h and errno codes -/

def NOTIFY_DONE : Nat := 0x0000
def NOTIFY_OK : Nat := 0x0001
def NOTIFY_STOP_MASK : Nat := 0x8000
def NOTIFY_BAD : Nat := NOTIFY_STOP_MASK ||| 0x0002
def NOTIFY_STOP : Nat := NOTIFY_STOP_MASK ||| NOTIFY_OK

/-- errno `EIO` (named `EIOerr` here because `EIO` is taken in Lean). -/
def EIOerr : Nat := 5
def EAGAIN : Nat := 11
def EBUSY : Nat := 16
def ENODEV : Nat := 19
def EINVAL : Nat := 22
def EPIPE : Nat := 32
def ENOBUFS : Nat := 105

def HPSC_MSG_SIZE : Nat := 64
def HPSC_MSG_PAYLOAD_OFFSET : Nat := 4
def HPSC_MSG_PAYLOAD_SIZE : Nat := HPSC_MSG_SIZE - 4

/-! ## Notification bus (drivers/soc/hpsc/hpsc-notif.c)

The bus holds registered transport handlers; a handler's send takes the
current system state and returns the new state together with a notifier
return code (`NOTIFY_STOP` on acceptance, `NOTIFY_STOP_MASK | EAGAIN`
to request a retry, another positive code so lower priorities are
tried).  The state type is a parameter so each claim can instrument the
effects it needs. -/

/-- Modelled from the spec: the registry walk performed by
`__atomic_notifier_call_chain` (kernel/notifier.c, which is not under
src/).  The spec describes the bus as a priority-ordered table whose
`send` "walks the table from highest priority downward; for each
occupied slot, invokes its send", stopping when a slot accepts or asks
for a retry.  The handler list is therefore ordered highest priority
first; the walk invokes each handler in turn and stops as soon as a
return value has the stop mask set.  It returns the final state, the
return value of the last handler invoked (`ret` starts at
`NOTIFY_DONE`), and the number of handlers invoked (`nr_calls`). -/
def notifier_call_chain {σ : Type} :
    List (σ → σ × Nat) → σ → Nat → Nat → σ × Nat × Nat
  | [], s, ret, n => (s, ret, n)
  | h :: t, s, _, n =>
    let r := h s
    if r.2 &&& NOTIFY_STOP_MASK ≠ 0 then (r.1, r.2, n + 1)
    else notifier_call_chain t r.1 r.2 (n + 1)

/-- The retry loop of `hpsc_notif_send` from
src/drivers/soc/hpsc/hpsc-notif.c, lines 50-81.  One recursive step is
one iteration of `for (i = 0; i <= retries; i++)`: call the chain; on
`NOTIFY_STOP` return 0; if no handler was called return `-ENODEV`; if
the result differs from `NOTIFY_STOP_MASK & EAGAIN` (the test written
in the source, with a bitwise AND) surface it; otherwise retry while
`i < retries`, i.e. while the remaining-iteration counter is nonzero,
and surface the result once retries are exhausted. -/
def hpsc_notif_send_loop {σ : Type} (handlers : List (σ → σ × Nat)) :
    Nat → σ → σ × Int
  | 0, s =>
    let r := notifier_call_chain handlers s NOTIFY_DONE 0
    if r.2.1 = NOTIFY_STOP then (r.1, 0)
    else if r.2.2 = 0 then (r.1, -(ENODEV : Int))
    else (r.1, (r.2.1 : Int))
  | rem + 1, s =>
    let r := notifier_call_chain handlers s NOTIFY_DONE 0
    if r.2.1 = NOTIFY_STOP then (r.1, 0)
    else if r.2.2 = 0 then (r.1, -(ENODEV : Int))
    else if r.2.1 ≠ NOTIFY_STOP_MASK &&& EAGAIN then (r.1, (r.2.1 : Int))
    else hpsc_notif_send_loop handlers rem r.1

/-- Embedding of `hpsc_notif_send(msg, sz)` with `retries` configured: run the loop
with `retries` further iterations allowed after the first. -/
def hpsc_notif_send {σ : Type} (handlers : List (σ → σ × Nat))
    (retries : Nat) (s : σ) : σ × Int :=
  hpsc_notif_send_loop handlers retries s

/-! ## Shared-memory transport (hpsc-msg-tp-shmem, src/unnamed/part_009) -/

def HPSC_SHMEM_STATUS_BIT_NEW : Nat := 0x01
def HPSC_SHMEM_STATUS_BIT_ACK : Nat := 0x02

/-- Embedding of `struct hpsc_shmem_region`: a 64-byte message slot and a 32-bit
status word. -/
structure hpsc_shmem_region where
  data : List Nat
  status : Nat
deriving Repr, DecidableEq

/-- Embedding of `is_new`: the NEW bit of the status word. -/
def is_new (reg : hpsc_shmem_region) : Bool :=
  reg.status &&& HPSC_SHMEM_STATUS_BIT_NEW ≠ 0

/-- Embedding of `hpsc_msg_tp_shmem_send` (src/unnamed/part_009, lines 53-70) acting
on the out region: if NEW is set, leave the region alone and return
`NOTIFY_STOP_MASK | EAGAIN`; otherwise copy the 64-byte message into
the slot, OR the NEW bit into the status word, and return
`NOTIFY_STOP`. -/
def hpsc_msg_tp_shmem_send (reg : hpsc_shmem_region) (msg : List Nat) :
    hpsc_shmem_region × Nat :=
  if is_new reg then (reg, NOTIFY_STOP_MASK ||| EAGAIN)
  else ({ data := msg, status := reg.status ||| HPSC_SHMEM_STATUS_BIT_NEW },
        NOTIFY_STOP)

/-! ## Bus instrumentation for the priority claims -/

/-- Bus-level state for the two-transport configuration: the
shared-memory out region plus a count of invocations of the mailbox
transport's send. -/
structure BusState where
  out : hpsc_shmem_region
  mboxCalls : Nat
deriving Repr, DecidableEq

/-- The shared-memory transport's notifier entry, lifted to `BusState`. -/
def shmem_nb (msg : List Nat) (s : BusState) : BusState × Nat :=
  let r := hpsc_msg_tp_shmem_send s.out msg
  ({ out := r.1, mboxCalls := s.mboxCalls }, r.2)

/-- The mailbox transport's notifier entry, instrumented: it counts its
invocations and returns whatever code the send function `f` yields in
the current state. -/
def mailbox_nb (f : BusState → Nat) (s : BusState) : BusState × Nat :=
  ({ s with mboxCalls := s.mboxCalls + 1 }, f s)

/-- Modelled from the spec: both transports registered, held by the bus
in priority order with Shmem ahead of Mailbox
(`HPSC_NOTIF_PRIORITY_SHMEM` above `HPSC_NOTIF_PRIORITY_MAILBOX`,
src/unnamed/part_006 lines 109-115; the chain ordering itself lives in
kernel/notifier.c, not under src/). -/
def notif_bus_both (msg : List Nat) (f : BusState → Nat) :
    List (BusState → BusState × Nat) :=
  [shmem_nb msg, mailbox_nb f]

/-- State for the retry-loop scenario of the spec: how many times the
single registered transport's send has been invoked. -/
structure RetryState where
  calls : Nat
deriving Repr, DecidableEq

/-- A transport whose send returns `NOTIFY_STOP_MASK | EAGAIN`
(TryAgain) on its first two invocations and then accepts with
`NOTIFY_STOP`, counting its invocations. -/
def retry_tp (s : RetryState) : RetryState × Nat :=
  ({ calls := s.calls + 1 },
   if s.calls < 2 then NOTIFY_STOP_MASK ||| EAGAIN else NOTIFY_STOP)

/-! ## System-message layer (drivers/soc/hpsc/hpsc-msg.c) -/

/-- Message type tags from `enum hpsc_msg_type` (src/unnamed/part_005). -/
def NOP : Nat := 0
def PING : Nat := 1
def PONG : Nat := 2
def WATCHDOG_TIMEOUT : Nat := 11
def FAULT : Nat := 12
def LIFECYCLE : Nat := 13
def HPSC_MSG_TYPE_COUNT : Nat := 15

/-- Effect state of the system-message layer: the 64-byte envelopes
handed to `hpsc_notif_send`, in order.  The bus itself is modelled
separately above; here we record what the layer asks it to send. -/
structure MsgEffects where
  sent : List (List Nat)
deriving Repr, DecidableEq

/-- One step of `msgcpy` (hpsc-msg.c lines 50-57): copy one aligned
32-bit word, i.e. four consecutive bytes, then continue with the rest
of the buffer; `n` counts the remaining words
(`HPSC_MSG_SIZE / sizeof(u32)` at the top call). -/
def msgcpyWords : Nat → List Nat → List Nat
  | 0, _ => []
  | n + 1, src => src.take 4 ++ msgcpyWords n (src.drop 4)

/-- Embedding of `msgcpy`: copy the 64-byte envelope a 32-bit word at a time
(16 words; byte-wise memcpy is not allowed when the source is the
mailbox DATA registers). -/
def msgcpy (src : List Nat) : List Nat :=
  msgcpyWords (HPSC_MSG_SIZE / 4) src

/-- Embedding of `msg_cb_nop`: log and succeed. -/
def msg_cb_nop (_msg : List Nat) (s : MsgEffects) : MsgEffects × Int :=
  (s, 0)

/-- Embedding of `msg_cb_ping` (hpsc-msg.c lines 65-74): word-copy the incoming
envelope into a fresh response buffer, overwrite byte 0 with `PONG`,
and hand the response to `hpsc_notif_send`. -/
def msg_cb_ping (msg : List Nat) (s : MsgEffects) : MsgEffects × Int :=
  let res := (msgcpy msg).set 0 PONG
  ({ sent := s.sent ++ [res] }, 0)

/-- Embedding of `msg_cb_pong`: log and succeed. -/
def msg_cb_pong (_msg : List Nat) (s : MsgEffects) : MsgEffects × Int :=
  (s, 0)

/-- Embedding of `msg_cb_drop`: warn, hex-dump, and succeed. -/
def msg_cb_drop (_msg : List Nat) (s : MsgEffects) : MsgEffects × Int :=
  (s, 0)

/-- The dispatch table `msg_cbs` (hpsc-msg.c lines 100-116), indexed by
type tag: NOP, PING, PONG, then `msg_cb_drop` for READ_VALUE through
ACTION. -/
def msg_cbs : List (List Nat → MsgEffects → MsgEffects × Int) :=
  [msg_cb_nop, msg_cb_ping, msg_cb_pong,
   msg_cb_drop, msg_cb_drop, msg_cb_drop, msg_cb_drop,
   msg_cb_drop, msg_cb_drop, msg_cb_drop, msg_cb_drop,
   msg_cb_drop, msg_cb_drop, msg_cb_drop, msg_cb_drop]

/-- Embedding of `hpsc_msg_process` (hpsc-msg.c lines 118-129): read the type tag
`t = msg[0]`; reject `t >= HPSC_MSG_TYPE_COUNT` with `-EINVAL`
(the `t < 0` test in the source is vacuous for an unsigned byte);
otherwise invoke `msg_cbs[t]`. -/
def hpsc_msg_process (msg : List Nat) (s : MsgEffects) : MsgEffects × Int :=
  if msg.getD 0 0 ≥ HPSC_MSG_TYPE_COUNT then (s, -(EINVAL : Int))
  else (msg_cbs.getD (msg.getD 0 0) msg_cb_drop) msg s

/-- The little-endian byte image of a 32-bit value, as laid down by the
`memcpy` of a `u32` on this little-endian target. -/
def le32 (x : Nat) : List Nat :=
  [x % 256, x / 2 ^ 8 % 256, x / 2 ^ 16 % 256, x / 2 ^ 24 % 256]

/-- Embedding of `msg_send` (hpsc-msg.c lines 6-17): zero-initialise a 64-byte
envelope, set byte 0 to the type tag, `memcpy` the payload to offset 4,
and hand the envelope to `hpsc_notif_send` (recorded as an effect).
Requires `payload.length ≤ HPSC_MSG_PAYLOAD_SIZE` (the `BUG_ON`). -/
def mkEnvelope (t : Nat) (payload : List Nat) : List Nat :=
  [t, 0, 0, 0] ++ payload ++
    List.replicate (HPSC_MSG_SIZE - HPSC_MSG_PAYLOAD_OFFSET - payload.length) 0

def msg_send (t : Nat) (payload : List Nat) (s : MsgEffects) : MsgEffects :=
  { sent := s.sent ++ [mkEnvelope t payload] }

/-- Embedding of `hpsc_msg_wdt_timeout` (hpsc-msg.c lines 19-24): the payload is the
4-byte id of the CPU whose watchdog timed out. -/
def hpsc_msg_wdt_timeout (cpu : Nat) (s : MsgEffects) : MsgEffects :=
  msg_send WATCHDOG_TIMEOUT (le32 cpu) s

def LIFECYCLE_INFO_SIZE : Nat := HPSC_MSG_PAYLOAD_SIZE - 4

/-- Modelled from the spec: the effect of
`vsnprintf(p.info, LIFECYCLE_INFO_SIZE - 1, fmt, args)` on the
zero-initialised 56-byte `info` field when `fmt` is a plain info string
(no conversion specifiers).  `vsnprintf` is kernel library code not
under src/; per its contract it writes at most `size - 1` bytes of the
string and a terminating zero byte, and the rest of the field keeps its
zero initialisation. -/
def lifecycle_info_field (info : List Nat) : List Nat :=
  info.take (LIFECYCLE_INFO_SIZE - 1 - 1) ++
    List.replicate (LIFECYCLE_INFO_SIZE - min info.length (LIFECYCLE_INFO_SIZE - 1 - 1)) 0

/-- Embedding of `hpsc_msg_lifecycle` (hpsc-msg.c lines 27-44): the payload is
`struct hpsc_msg_lifeycle_payload` (src/unnamed/part_005 lines 50-53):
the `u32` status followed by the 56-byte `info` field filled by
`vsnprintf`. -/
def hpsc_msg_lifecycle (status : Nat) (info : List Nat) (s : MsgEffects) :
    MsgEffects :=
  msg_send LIFECYCLE (le32 status ++ lifecycle_info_field info) s

/-- Decoder for a LIFECYCLE envelope following the layout of
`struct hpsc_msg_lifeycle_payload`: the `u32` status is the
little-endian word at payload offset 0 (envelope bytes 4..7) and the
info text is the nul-terminated string in the 56-byte field after it
(envelope bytes 8..63). -/
def lifecycle_decode (env : List Nat) : Nat × List Nat :=
  (env.getD 4 0 + 2 ^ 8 * env.getD 5 0 + 2 ^ 16 * env.getD 6 0 +
     2 ^ 24 * env.getD 7 0,
   (((env.drop 8).take LIFECYCLE_INFO_SIZE).takeWhile (fun b => b ≠ 0)))

/-! ## Pretimeout monitor (drivers/soc/hpsc/hpsc-monitor.c) -/

/-- State of the pretimeout monitor: the system-message effects, the
`is_in_poweroff` atomic flag, and a count of `orderly_poweroff`
initiations (an effect of the handler). -/
structure MonitorState where
  effects : MsgEffects
  is_in_poweroff : Bool
  poweroffs : Nat
deriving Repr, DecidableEq

/-- Embedding of `hpsc_monitor_wdt` (hpsc-monitor.c lines 58-74): send the
WATCHDOG_TIMEOUT message for the CPU carried in `action`; then
`atomic_cmpxchg(&is_in_poweroff, 0, 1)`: if the flag was already set,
only log and return `NOTIFY_OK`; otherwise initiate
`orderly_poweroff(true)` (counted as an effect), leave the flag set,
and return `NOTIFY_BAD` (the code treats `orderly_poweroff`
returning as a failure). -/
def hpsc_monitor_wdt (action : Nat) (s : MonitorState) : MonitorState × Nat :=
  let e := hpsc_msg_wdt_timeout action s.effects
  if s.is_in_poweroff then
    ({ s with effects := e }, NOTIFY_OK)
  else
    ({ effects := e, is_in_poweroff := true, poweroffs := s.poweroffs + 1 },
     NOTIFY_BAD)

/-- The monitor state at module init: no messages sent yet, the
poweroff guard clear (`ATOMIC_INIT(0)`), no poweroff initiated. -/
def monitor_init_state : MonitorState :=
  { effects := { sent := [] }, is_in_poweroff := false, poweroffs := 0 }

/-- A sequence of watchdog pretimeout events, delivered in order to
`hpsc_monitor_wdt`. -/
def run_wdt_events : List Nat → MonitorState → MonitorState
  | [], s => s
  | c :: cs, s => run_wdt_events cs (hpsc_monitor_wdt c s).1

/-! ## Userspace mailbox client (drivers/soc/hpsc/hpsc-mbox-userspace.c) -/

def HPSC_MBOX_DATA_REGS : Nat := 16
def MBOX_MAX_MSG_LEN : Nat := HPSC_MBOX_DATA_REGS * 4

/-- The dynamic fields of `struct mbox_chan_dev`: whether the channel
pointer is non-null (device open), the one-message rx/tx buffer, the
direction, the rx-pending flag, and the tx-ack slot. -/
structure mbox_chan_dev where
  channel : Bool
  message : List Nat
  incoming : Bool
  rx_msg_pending : Bool
  send_ack : Bool
  send_rc : Int
deriving Repr, DecidableEq

/-- A send issued to the mailbox controller through
`mbox_send_message`: a 64-byte payload, an ack (`NULL` message), or a
nack (`ERR_PTR(err)` message). -/
inductive ChanSend where
  | payload (msg : List Nat)
  | ack
  | nack (err : Int)
deriving Repr, DecidableEq

/-- Embedding of `hpsc_mbox_rx_ack` (hpsc-mbox-userspace.c lines 78-82):
`mbox_send_message(chan->channel, err ? ERR_PTR(err) : NULL)` — 0 is an
ACK, anything else is a NACK. -/
def hpsc_mbox_rx_ack (err : Int) : ChanSend :=
  if err ≠ 0 then ChanSend.nack err else ChanSend.ack

/-- Embedding of `mbox_received` (hpsc-mbox-userspace.c lines 84-111): under the
device lock, drop the message if the channel is closed; if a message is
already pending, nack with `-ENOBUFS` and drop the new message leaving
the device state alone; otherwise copy the 64 bytes into the buffer and
set the pending flag.  `log` is the list of sends issued to the
controller. -/
def mbox_received (message : List Nat) (chan : mbox_chan_dev)
    (log : List ChanSend) : mbox_chan_dev × List ChanSend :=
  if !chan.channel then (chan, log)
  else if chan.rx_msg_pending then
    (chan, log ++ [hpsc_mbox_rx_ack (-(ENOBUFS : Int))])
  else
    ({ chan with message := message.take MBOX_MAX_MSG_LEN,
                 rx_msg_pending := true }, log)

/-- Embedding of `mbox_release` (hpsc-mbox-userspace.c lines 202-219): if the
channel is attached, first nack with `-EPIPE` when an rx message is
still pending, then free the channel and null the pointer; otherwise
only warn. -/
def mbox_release (chan : mbox_chan_dev) (log : List ChanSend) :
    mbox_chan_dev × List ChanSend :=
  if chan.channel then
    let log2 := if chan.rx_msg_pending
                then log ++ [hpsc_mbox_rx_ack (-(EPIPE : Int))]
                else log
    ({ chan with channel := false }, log2)
  else (chan, log)

/-- Embedding of `mbox_open` (hpsc-mbox-userspace.c lines 153-200): fail with
`-EBUSY` if the channel is already attached; otherwise derive the
direction from the file mode (`read only ⇒ incoming`), reset the
status fields, and request the channel from the framework —
`requestOk` models whether `mbox_request_channel` succeeds; on failure
the channel stays null and `-EIO` is returned. -/
def mbox_open (readMode writeMode requestOk : Bool) (chan : mbox_chan_dev) :
    mbox_chan_dev × Int :=
  if chan.channel then (chan, -(EBUSY : Int))
  else
    let c2 := { chan with incoming := readMode && !writeMode,
                          rx_msg_pending := false,
                          send_rc := 0, send_ack := false }
    if requestOk then ({ c2 with channel := true }, 0)
    else (c2, -(EIOerr : Int))

/-- Result of a `read` on the device file: an error, the 64-byte
message (incoming), or the 4-byte ack/nack status (outgoing). -/
inductive ReadResult where
  | err (e : Int)
  | bytes (data : List Nat)
  | ackStatus (rc : Int)
deriving Repr, DecidableEq

/-- Embedding of `mbox_read` (hpsc-mbox-userspace.c lines 273-320): closed channel
returns `-ENODEV`; an incoming device returns `-EAGAIN` when nothing is
pending, else the buffered message, clearing the pending flag and
pulsing the rx-ack; an outgoing device returns `-EAGAIN` when no ack
arrived, else the 4-byte status, clearing the ack slot. -/
def mbox_read (chan : mbox_chan_dev) (log : List ChanSend) :
    mbox_chan_dev × List ChanSend × ReadResult :=
  if !chan.channel then (chan, log, ReadResult.err (-(ENODEV : Int)))
  else if chan.incoming then
    if !chan.rx_msg_pending then (chan, log, ReadResult.err (-(EAGAIN : Int)))
    else ({ chan with rx_msg_pending := false },
          log ++ [hpsc_mbox_rx_ack 0], ReadResult.bytes chan.message)
  else
    if !chan.send_ack then (chan, log, ReadResult.err (-(EAGAIN : Int)))
    else ({ chan with send_ack := false, send_rc := 0 },
          log, ReadResult.ackStatus chan.send_rc)

/-! ## Mailbox controller startup (drivers/mailbox/hpsc-mailbox.c,
second revision in the file, lines 351-807) -/

def REG_CONFIG__UNSECURE : Nat := 0x1
def REG_CONFIG__OWNER__SHIFT : Nat := 8
def REG_CONFIG__OWNER__MASK : Nat := 0x0000ff00
def REG_CONFIG__SRC__SHIFT : Nat := 16
def REG_CONFIG__SRC__MASK : Nat := 0x00ff0000
def REG_CONFIG__DEST__SHIFT : Nat := 24
def REG_CONFIG__DEST__MASK : Nat := 0xff000000

/-- Embedding of `HPSC_MBOX_INT_A(idx)`: event A routed to IRQ index `idx`. -/
def HPSC_MBOX_INT_A (idx : Nat) : Nat := 1 <<< (2 * idx)
/-- Embedding of `HPSC_MBOX_INT_B(idx)`: event B routed to IRQ index `idx`. -/
def HPSC_MBOX_INT_B (idx : Nat) : Nat := 1 <<< (2 * idx + 1)

/-- The per-instance registers touched by the startup path. -/
structure MboxRegs where
  config : Nat
  int_enable : Nat
deriving Repr, DecidableEq

/-- The constant per-channel configuration from the device tree
(`struct hpsc_mbox_chan`). -/
structure hpsc_mbox_chan where
  owner : Nat
  src : Nat
  dest : Nat
deriving Repr, DecidableEq

/-- Embedding of `hpsc_mbox_maybe_claim_owner` (hpsc-mailbox.c lines 509-537): when
`owner` is nonzero, write the composed CONFIG word and read it back;
`readback` models the value the hardware returns for that read — a
mismatch fails with `-EBUSY`.  When `owner` is zero this is a no-op. -/
def hpsc_mbox_maybe_claim_owner (chan : hpsc_mbox_chan) (regs : MboxRegs)
    (readback : Nat) : MboxRegs × Int :=
  if chan.owner ≠ 0 then
    let config := ((chan.owner <<< REG_CONFIG__OWNER__SHIFT) &&& REG_CONFIG__OWNER__MASK) |||
                  ((chan.src <<< REG_CONFIG__SRC__SHIFT) &&& REG_CONFIG__SRC__MASK) |||
                  ((chan.dest <<< REG_CONFIG__DEST__SHIFT) &&& REG_CONFIG__DEST__MASK) |||
                  REG_CONFIG__UNSECURE
    let regs2 := { regs with config := config }
    if readback ≠ config then (regs2, -(EBUSY : Int)) else (regs2, 0)
  else (regs, 0)

/-- Embedding of `hpsc_mbox_maybe_release_owner` (hpsc-mailbox.c lines 539-547):
clear CONFIG when the owner was claimed. -/
def hpsc_mbox_maybe_release_owner (chan : hpsc_mbox_chan) (regs : MboxRegs) :
    MboxRegs :=
  if chan.owner ≠ 0 then { regs with config := 0 } else regs

/-- Embedding of `hpsc_mbox_verify_config` (hpsc-mailbox.c lines 549-574): when the
client expects a nonzero src or dest, read CONFIG, extract the stored
owner/src/dest fields, and fail with `-EBUSY` when a receiving client's
nonzero expected dest differs from the stored dest, or a sending
client's nonzero expected src differs from the stored src. -/
def hpsc_mbox_verify_config (chan : hpsc_mbox_chan) (regs : MboxRegs)
    (is_recv is_send : Bool) : Int :=
  if chan.src ≠ 0 ∨ chan.dest ≠ 0 then
    let config := regs.config
    let src := (config &&& REG_CONFIG__SRC__MASK) >>> REG_CONFIG__SRC__SHIFT
    let dest := (config &&& REG_CONFIG__DEST__MASK) >>> REG_CONFIG__DEST__SHIFT
    if (is_recv ∧ chan.dest ≠ 0 ∧ dest ≠ chan.dest) ∨
       (is_send ∧ chan.src ≠ 0 ∧ src ≠ chan.src) then -(EBUSY : Int)
    else 0
  else 0

/-- Embedding of `hpsc_mbox_startup` (hpsc-mailbox.c lines 576-613): maybe claim the
owner; verify the configuration (releasing the owner again on a
mismatch); then OR into INT-ENABLE the event-A bit at the bank's
RX-IRQ index if the client has a receive callback and the event-B bit
at the ACK-IRQ index if it has a tx-done callback.  `is_recv` and
`is_send` reflect `link->cl->rx_callback` and `link->cl->tx_done`. -/
def hpsc_mbox_startup (chan : hpsc_mbox_chan) (regs : MboxRegs)
    (readback : Nat) (is_recv is_send : Bool)
    (rcv_int_idx ack_int_idx : Nat) : MboxRegs × Int :=
  let r := hpsc_mbox_maybe_claim_owner chan regs readback
  if r.2 ≠ 0 then r
  else
    let v := hpsc_mbox_verify_config chan r.1 is_recv is_send
    if v ≠ 0 then (hpsc_mbox_maybe_release_owner chan r.1, v)
    else
      let ie := r.1.int_enable |||
                (if is_recv then HPSC_MBOX_INT_A rcv_int_idx else 0) |||
                (if is_send then HPSC_MBOX_INT_B ack_int_idx else 0)
      ({ r.1 with int_enable := ie }, 0)

lemma lor_one_and_one (x : Nat) : (x ||| 1) &&& 1 = 1 := by
  simp [Nat.and_one_is_mod]

lemma chain_both_busy (s : BusState) (msg : List Nat) (f : BusState → Nat)
    (h : is_new s.out = true) :
    notifier_call_chain (notif_bus_both msg f) s NOTIFY_DONE 0 =
      (s, NOTIFY_STOP_MASK ||| EAGAIN, 1) := by
  simp [notifier_call_chain, notif_bus_both, shmem_nb, hpsc_msg_tp_shmem_send,
        h, NOTIFY_STOP_MASK, EAGAIN]

lemma chain_both_free (s : BusState) (msg : List Nat) (f : BusState → Nat)
    (h : is_new s.out = false) :
    notifier_call_chain (notif_bus_both msg f) s NOTIFY_DONE 0 =
      ({ out := { data := msg,
                  status := s.out.status ||| HPSC_SHMEM_STATUS_BIT_NEW },
         mboxCalls := s.mboxCalls }, NOTIFY_STOP, 1) := by
  simp [notifier_call_chain, notif_bus_both, shmem_nb, hpsc_msg_tp_shmem_send,
        h, NOTIFY_STOP_MASK, EAGAIN, NOTIFY_STOP, NOTIFY_OK,
        HPSC_SHMEM_STATUS_BIT_NEW]

/-- C1: with both transports registered — shared-memory at priority
Shmem ahead of mailbox at priority Mailbox — a single bus walk never
invokes the Mailbox transport's send: a walk that succeeds
(`NOTIFY_STOP`) was accepted by the Shmem transport (the message sits
in the out slot with NEW set), and when the Shmem transport's send
returns TryAgain the walk stops with that result, leaving the state
untouched, instead of falling through to Mailbox. -/
theorem notif_priority_shmem_first (s : BusState) (msg : List Nat)
    (f : BusState → Nat) :
    ((notifier_call_chain (notif_bus_both msg f) s NOTIFY_DONE 0).1.mboxCalls
        = s.mboxCalls) ∧
    ((notifier_call_chain (notif_bus_both msg f) s NOTIFY_DONE 0).2.1
        = NOTIFY_STOP →
      (notifier_call_chain (notif_bus_both msg f) s NOTIFY_DONE 0).1.out.data
        = msg ∧
      is_new (notifier_call_chain (notif_bus_both msg f) s NOTIFY_DONE 0).1.out
        = true) ∧
    (is_new s.out = true →
      (notifier_call_chain (notif_bus_both msg f) s NOTIFY_DONE 0).2.1
        = NOTIFY_STOP_MASK ||| EAGAIN ∧
      (notifier_call_chain (notif_bus_both msg f) s NOTIFY_DONE 0).1 = s) := by
  by_cases h : is_new s.out
  · rw [chain_both_busy s msg f h]
    refine ⟨rfl, ?_, fun _ => ⟨rfl, rfl⟩⟩
    intro hc
    simp [NOTIFY_STOP, NOTIFY_STOP_MASK, NOTIFY_OK, EAGAIN] at hc
  · simp only [Bool.not_eq_true] at h
    rw [chain_both_free s msg f h]
    refine ⟨rfl, fun _ => ⟨rfl, ?_⟩, fun hc => absurd hc (by simp [h])⟩
    simp [is_new, HPSC_SHMEM_STATUS_BIT_NEW, lor_one_and_one]


/-- C2 (code evaluated at the failing input): the claim says that with
`retries = 2` and a transport whose send returns TryAgain twice and then
succeeds, the helper invokes the transport's send three times and
returns success.  The source compares the chain result against
`NOTIFY_STOP_MASK & EAGAIN` (which is 0) instead of
`NOTIFY_STOP_MASK | EAGAIN`, so the first TryAgain takes the
"failed" break: the transport is invoked exactly once and the call
surfaces `NOTIFY_STOP_MASK ||| EAGAIN` as an error instead of
succeeding. -/
theorem notif_send_no_retry_on_eagain :
    (hpsc_notif_send [retry_tp] 2 { calls := 0 }).1.calls = 1 ∧
    (hpsc_notif_send [retry_tp] 2 { calls := 0 }).2 =
      ((NOTIFY_STOP_MASK ||| EAGAIN : Nat) : Int) ∧
    (hpsc_notif_send [retry_tp] 2 { calls := 0 }).2 ≠ 0 := by decide

lemma msgcpyWords_eq (n : Nat) :
    ∀ src : List Nat, src.length = 4 * n → msgcpyWords n src = src := by
  induction n with
  | zero =>
    intro src h
    simp only [Nat.mul_zero] at h
    simp [msgcpyWords, List.eq_nil_of_length_eq_zero h]
  | succ n ih =>
    intro src h
    have hdrop : (src.drop 4).length = 4 * n := by
      simp [List.length_drop, h, Nat.mul_succ]
    simp [msgcpyWords, ih _ hdrop]

lemma msgcpy_eq (src : List Nat) (h : src.length = HPSC_MSG_SIZE) :
    msgcpy src = src :=
  msgcpyWords_eq 16 src (by simpa [HPSC_MSG_SIZE] using h)

/-- C3: for every 64-byte envelope, `hpsc_msg_process` reads the type
tag `t = msg[0]`; if `t` is at least `HPSC_MSG_TYPE_COUNT` (15) it
returns `-EINVAL` without invoking any handler (the state is
unchanged); otherwise it invokes exactly the table handler for `t`,
and that handler returns 0 (success). -/
theorem msg_process_dispatch (msg : List Nat) (s : MsgEffects)
    (hlen : msg.length = HPSC_MSG_SIZE) :
    (msg.getD 0 0 ≥ HPSC_MSG_TYPE_COUNT →
       hpsc_msg_process msg s = (s, -(EINVAL : Int))) ∧
    (msg.getD 0 0 < HPSC_MSG_TYPE_COUNT →
       hpsc_msg_process msg s =
         (msg_cbs.getD (msg.getD 0 0) msg_cb_drop) msg s ∧
       (hpsc_msg_process msg s).2 = 0) := by
  unfold hpsc_msg_process
  constructor
  · intro h
    rw [if_pos h]
  · intro h
    rw [if_neg (by omega)]
    refine ⟨rfl, ?_⟩
    have h15 : msg.getD 0 0 < 15 := h
    generalize hgen : msg.getD 0 0 = t at h15 ⊢
    interval_cases t <;>
      simp [msg_cbs, msg_cb_nop, msg_cb_ping, msg_cb_pong, msg_cb_drop]

/-- C4: for every 64-byte envelope whose type tag is PING, processing
it hands exactly one envelope to the notification bus, whose type tag
is PONG and whose bytes 1..63 equal the incoming envelope's
bytes 1..63. -/
theorem ping_echo (msg : List Nat) (s : MsgEffects)
    (hlen : msg.length = HPSC_MSG_SIZE) (htag : msg.getD 0 0 = PING) :
    ∃ p, hpsc_msg_process msg s = ({ sent := s.sent ++ [p] }, 0) ∧
      p.length = HPSC_MSG_SIZE ∧ p.getD 0 0 = PONG ∧ p.drop 1 = msg.drop 1 := by
  refine ⟨msg.set 0 PONG, ?_, ?_, ?_, ?_⟩
  · unfold hpsc_msg_process
    rw [if_neg (by rw [htag]; decide)]
    rw [htag]
    show msg_cb_ping msg s = _
    unfold msg_cb_ping
    rw [msgcpy_eq msg hlen]
  · simp [hlen]
  · have h0 : 0 < msg.length := by rw [hlen]; decide
    simp [List.getD_eq_getElem?_getD, List.getElem?_set_self, h0]
  · rw [List.drop_set_of_lt _ _ (by decide : (0:Nat) < 1)]

lemma takeWhile_append_all {α : Type} (p : α → Bool) (l1 l2 : List α)
    (h : ∀ b ∈ l1, p b = true) :
    (l1 ++ l2).takeWhile p = l1 ++ l2.takeWhile p := by
  induction l1 with
  | nil => simp
  | cons a t ih =>
    have ha : p a = true := h a (by simp)
    simp [List.takeWhile_cons, ha]
    exact ih fun b hb => h b (by simp [hb])

lemma takeWhile_ne_zero_replicate_zero (k : Nat) :
    (List.replicate k (0 : Nat)).takeWhile (fun b => b ≠ 0) = [] := by
  cases k with
  | zero => simp
  | succ n => simp [List.replicate_succ, List.takeWhile_cons]

/-- C5 (amended): for status `UP`/`DOWN` and every nul-free info
string of at most 54 bytes — i.e. one that fits within 55 bytes
including the terminator, because the encoder caps `vsnprintf` at
`LIFECYCLE_INFO_SIZE - 1 = 55` total bytes — encoding
LIFECYCLE(status, info) hands exactly that envelope to the bus,
dispatching the envelope through the message layer succeeds, and
decoding it by the payload-struct layout yields the same
(status, info) pair. -/
theorem lifecycle_roundtrip (status : Nat) (info : List Nat) (s : MsgEffects)
    (hst : status < 2) (hlen : info.length ≤ 54)
    (hbytes : ∀ b ∈ info, b ≠ 0) :
    ∃ env, hpsc_msg_lifecycle status info s = { sent := s.sent ++ [env] } ∧
      (∀ s2, hpsc_msg_process env s2 = (s2, 0)) ∧
      lifecycle_decode env = (status, info) := by
  refine ⟨mkEnvelope LIFECYCLE (le32 status ++ lifecycle_info_field info),
          rfl, ?_, ?_⟩
  · intro s2
    unfold hpsc_msg_process
    have htag : (mkEnvelope LIFECYCLE
        (le32 status ++ lifecycle_info_field info)).getD 0 0 = LIFECYCLE := by
      simp [mkEnvelope]
    rw [htag, if_neg (by decide)]
    simp [msg_cbs, LIFECYCLE, msg_cb_drop]
  · have hfield : lifecycle_info_field info =
        info ++ List.replicate (56 - info.length) 0 := by
      unfold lifecycle_info_field LIFECYCLE_INFO_SIZE HPSC_MSG_PAYLOAD_SIZE
        HPSC_MSG_SIZE
      rw [List.take_of_length_le (by omega), Nat.min_eq_left (by omega)]
    have henv : mkEnvelope LIFECYCLE (le32 status ++ lifecycle_info_field info) =
        LIFECYCLE :: 0 :: 0 :: 0 :: (status % 256) :: (status / 2 ^ 8 % 256) ::
          (status / 2 ^ 16 % 256) :: (status / 2 ^ 24 % 256) ::
          (info ++ List.replicate (56 - info.length) 0) := by
      have hplen : (le32 status ++ lifecycle_info_field info).length = 60 := by
        simp [le32, hfield]
        omega
      unfold mkEnvelope HPSC_MSG_SIZE HPSC_MSG_PAYLOAD_OFFSET
      rw [hplen, hfield]
      simp [le32]
    rw [henv]
    unfold lifecycle_decode LIFECYCLE_INFO_SIZE HPSC_MSG_PAYLOAD_SIZE
      HPSC_MSG_SIZE
    have h256 : status < 256 := by omega
    have htake : (info ++ List.replicate (56 - info.length) 0).take (64 - 4 - 4) =
        info ++ List.replicate (56 - info.length) 0 := by
      apply List.take_of_length_le
      simp
      omega
    simp only [Prod.mk.injEq]
    constructor
    · simp only [List.getD_cons_succ, List.getD_cons_zero]
      omega
    · simp only [List.drop_succ_cons, List.drop_zero]
      rw [htake, takeWhile_append_all _ _ _ (by
          intro b hb
          simpa using hbytes b hb),
        takeWhile_ne_zero_replicate_zero]
      simp

/-- C5 counterexample: an info string of 55 nonzero bytes fits within
56 bytes as nul-terminated text, but the encoder truncates it to 54
bytes (`vsnprintf` is called with size 55, writing at most 54
characters), so the claimed round-trip fails for it. -/
theorem lifecycle_roundtrip_55_fails :
    (∀ b ∈ List.replicate 55 97, b ≠ (0 : Nat)) ∧
    List.replicate 55 (97 : Nat) ≠ [] ∧
    lifecycle_decode
        ((hpsc_msg_lifecycle 0 (List.replicate 55 97) { sent := [] }).sent.getD 0 [])
      ≠ (0, List.replicate 55 97) := by decide

/-- C6: a shared-memory transport send on an out region whose status
word has the NEW bit set returns TryAgain
(`NOTIFY_STOP_MASK ||| EAGAIN`) and leaves the 64-byte slot and the
status word unchanged; otherwise it copies the payload into the slot,
sets the NEW bit, and accepts. -/
theorem shmem_send_busy_or_accept (reg : hpsc_shmem_region) (msg : List Nat) :
    (is_new reg = true →
      hpsc_msg_tp_shmem_send reg msg = (reg, NOTIFY_STOP_MASK ||| EAGAIN)) ∧
    (is_new reg = false →
      hpsc_msg_tp_shmem_send reg msg =
        ({ data := msg, status := reg.status ||| HPSC_SHMEM_STATUS_BIT_NEW },
         NOTIFY_STOP)) := by
  constructor <;> intro h <;> simp [hpsc_msg_tp_shmem_send, h]

/-- C7: closing a user-facing mailbox device while a received message
is still pending issues a nack with reason Pipe (`-EPIPE`) to the
controller and detaches the channel (the channel reference becomes
null), after which re-opening the same instance succeeds and
re-attaches a channel. -/
theorem release_pending_nack_then_detach (chan : mbox_chan_dev)
    (log : List ChanSend) (hch : chan.channel = true)
    (hrx : chan.rx_msg_pending = true) :
    (mbox_release chan log).2 = log ++ [ChanSend.nack (-(EPIPE : Int))] ∧
    (mbox_release chan log).1.channel = false ∧
    (∀ rm wm, (mbox_open rm wm true (mbox_release chan log).1).2 = 0 ∧
              (mbox_open rm wm true (mbox_release chan log).1).1.channel = true) := by
  refine ⟨?_, ?_, ?_⟩
  · simp [mbox_release, hch, hrx, hpsc_mbox_rx_ack, EPIPE]
  · simp [mbox_release, hch]
  · intro rm wm
    constructor <;> simp [mbox_release, mbox_open, hch]

lemma run_wdt_events_spec (cpus : List Nat) :
    ∀ s : MonitorState,
      (run_wdt_events cpus s).effects.sent =
        s.effects.sent ++
          cpus.map (fun c => mkEnvelope WATCHDOG_TIMEOUT (le32 c)) ∧
      (run_wdt_events cpus s).poweroffs =
        s.poweroffs + (if s.is_in_poweroff then 0 else min cpus.length 1) := by
  induction cpus with
  | nil => intro s; simp [run_wdt_events]
  | cons c cs ih =>
    intro s
    by_cases h : s.is_in_poweroff
    · have hstep : (hpsc_monitor_wdt c s).1 =
          { s with effects := hpsc_msg_wdt_timeout c s.effects } := by
        simp [hpsc_monitor_wdt, h]
      simp only [run_wdt_events, hstep]
      rcases ih { s with effects := hpsc_msg_wdt_timeout c s.effects } with ⟨h1, h2⟩
      refine ⟨?_, ?_⟩
      · rw [h1]
        simp [hpsc_msg_wdt_timeout, msg_send, h]
      · rw [h2]
        simp [h]
    · have hstep : (hpsc_monitor_wdt c s).1 =
          { effects := hpsc_msg_wdt_timeout c s.effects,
            is_in_poweroff := true, poweroffs := s.poweroffs + 1 } := by
        simp [hpsc_monitor_wdt, h]
      simp only [run_wdt_events, hstep]
      rcases ih { effects := hpsc_msg_wdt_timeout c s.effects,
                  is_in_poweroff := true, poweroffs := s.poweroffs + 1 } with ⟨h1, h2⟩
      refine ⟨?_, ?_⟩
      · rw [h1]
        simp [hpsc_msg_wdt_timeout, msg_send, h]
      · rw [h2]
        simp [h]

/-- C8: over any sequence of watchdog pretimeout events starting from
the monitor's initial state, every event sends one WATCHDOG_TIMEOUT
envelope whose payload is the 4-byte little-endian CPU id, and the
orderly poweroff is initiated exactly once as soon as the sequence is
nonempty — the first pretimeout initiates it and later pretimeouts
while the poweroff is in progress are only logged. -/
theorem wdt_pretimeout_msgs_and_single_poweroff (cpus : List Nat) :
    (run_wdt_events cpus monitor_init_state).effects.sent =
      cpus.map (fun c => mkEnvelope WATCHDOG_TIMEOUT (le32 c)) ∧
    (run_wdt_events cpus monitor_init_state).poweroffs = min cpus.length 1 ∧
    (∀ c, (mkEnvelope WATCHDOG_TIMEOUT (le32 c)).getD 0 0 = WATCHDOG_TIMEOUT ∧
          ((mkEnvelope WATCHDOG_TIMEOUT (le32 c)).drop
              HPSC_MSG_PAYLOAD_OFFSET).take 4 = le32 c) := by
  rcases run_wdt_events_spec cpus monitor_init_state with ⟨h1, h2⟩
  refine ⟨by simpa [monitor_init_state] using h1,
          by simpa [monitor_init_state] using h2, ?_⟩
  intro c
  constructor
  · simp [mkEnvelope]
  · simp [mkEnvelope, le32, HPSC_MSG_PAYLOAD_OFFSET]

/-- C10: a receive up-call arriving while a previous message is still
pending leaves the whole device state (stored 64-byte buffer and
rx-pending flag) unchanged, drops the new message, and issues a nack
with reason NoBufferSpace (`-ENOBUFS`) to the controller, so a
subsequent read still returns the earlier pending message. -/
theorem rx_overflow_nack_keeps_pending (m : List Nat) (chan : mbox_chan_dev)
    (log : List ChanSend) (hch : chan.channel = true)
    (hrx : chan.rx_msg_pending = true) (hin : chan.incoming = true) :
    mbox_received m chan log =
      (chan, log ++ [ChanSend.nack (-(ENOBUFS : Int))]) ∧
    (mbox_read (mbox_received m chan log).1
        (mbox_received m chan log).2).2.2 = ReadResult.bytes chan.message := by
  have hrecv : mbox_received m chan log =
      (chan, log ++ [ChanSend.nack (-(ENOBUFS : Int))]) := by
    simp [mbox_received, hch, hrx, hpsc_mbox_rx_ack, ENOBUFS]
  refine ⟨hrecv, ?_⟩
  rw [hrecv]
  simp [mbox_read, hch, hin, hrx]

/-- C9 counterexample: a startup with owner 0, expected src 1 and
dest 2, for a receive-only client (rx callback, no tx-done callback),
against a CONFIG register whose stored src field is 5 (differing from
the expected 1) and stored dest field is 2, succeeds and enables the
event-A interrupt bit instead of failing with ConfigMismatch: the
code only checks the field relevant to the client's direction. -/
theorem startup_ignores_src_for_recv_only :
    ((((5 <<< 16) ||| (2 <<< 24) : Nat) &&& REG_CONFIG__SRC__MASK) >>>
        REG_CONFIG__SRC__SHIFT ≠ (1 : Nat)) ∧
    hpsc_mbox_startup { owner := 0, src := 1, dest := 2 }
        { config := (5 <<< 16) ||| (2 <<< 24), int_enable := 0 } 0 true false 0 1 =
      ({ config := (5 <<< 16) ||| (2 <<< 24), int_enable := 1 }, 0) := by decide

/-- C9 (amended): on channel startup with nonzero expected src/dst but
owner zero, the code re-reads CONFIG and compares direction-
sensitively: the stored dst against the client's expected dst only
when the client has a receive callback, and the stored src against
the expected src only when it has a tx-done callback; it fails with
ConfigMismatch (`-EBUSY`) leaving the registers untouched when a
checked field differs, and otherwise proceeds to OR the interrupt
enable bits for the client's callbacks. -/
theorem startup_verify_direction_sensitive (src dest : Nat) (regs : MboxRegs)
    (rb : Nat) (is_recv is_send : Bool) (ridx aidx : Nat)
    (hsrc : src ≠ 0) (hdest : dest ≠ 0) :
    ((is_recv = true ∧
        (regs.config &&& REG_CONFIG__DEST__MASK) >>> REG_CONFIG__DEST__SHIFT ≠ dest) ∨
     (is_send = true ∧
        (regs.config &&& REG_CONFIG__SRC__MASK) >>> REG_CONFIG__SRC__SHIFT ≠ src) →
      hpsc_mbox_startup { owner := 0, src := src, dest := dest } regs rb
          is_recv is_send ridx aidx = (regs, -(EBUSY : Int))) ∧
    (¬((is_recv = true ∧
        (regs.config &&& REG_CONFIG__DEST__MASK) >>> REG_CONFIG__DEST__SHIFT ≠ dest) ∨
       (is_send = true ∧
        (regs.config &&& REG_CONFIG__SRC__MASK) >>> REG_CONFIG__SRC__SHIFT ≠ src)) →
      hpsc_mbox_startup { owner := 0, src := src, dest := dest } regs rb
          is_recv is_send ridx aidx =
        ({ regs with int_enable := regs.int_enable |||
             (if is_recv then HPSC_MBOX_INT_A ridx else 0) |||
             (if is_send then HPSC_MBOX_INT_B aidx else 0) }, 0)) := by
  have hclaim : hpsc_mbox_maybe_claim_owner
      { owner := 0, src := src, dest := dest } regs rb = (regs, 0) := by
    simp [hpsc_mbox_maybe_claim_owner]
  constructor
  · intro h
    have hv : hpsc_mbox_verify_config { owner := 0, src := src, dest := dest }
        regs is_recv is_send = -(EBUSY : Int) := by
      unfold hpsc_mbox_verify_config
      rw [if_pos (by simp [hsrc]), if_pos ?_]
      rcases h with ⟨h1, h2⟩ | ⟨h1, h2⟩
      · exact Or.inl ⟨by simp [h1], hdest, h2⟩
      · exact Or.inr ⟨by simp [h1], hsrc, h2⟩
    unfold hpsc_mbox_startup
    rw [hclaim]
    simp [hv, hpsc_mbox_maybe_release_owner, EBUSY]
  · intro h
    have hv : hpsc_mbox_verify_config { owner := 0, src := src, dest := dest }
        regs is_recv is_send = 0 := by
      unfold hpsc_mbox_verify_config
      rw [if_pos (by simp [hsrc]), if_neg ?_]
      intro hc
      apply h
      rcases hc with ⟨h1, _, h2⟩ | ⟨h1, _, h2⟩
      · exact Or.inl ⟨by simpa using h1, h2⟩
      · exact Or.inr ⟨by simpa using h1, h2⟩
    unfold hpsc_mbox_startup
    rw [hclaim]
    simp [hv]

/-- C1 witness: the theorem applied to a concrete busy out region. -/
theorem notif_priority_shmem_first_witness :
    is_new ({ out := { data := List.replicate 64 0, status := 1 },
              mboxCalls := 0 } : BusState).out = true ∧
    (notifier_call_chain
        (notif_bus_both (List.replicate 64 5) (fun _ => NOTIFY_STOP))
        { out := { data := List.replicate 64 0, status := 1 }, mboxCalls := 0 }
        NOTIFY_DONE 0).2.1 = NOTIFY_STOP_MASK ||| EAGAIN ∧
    (notifier_call_chain
        (notif_bus_both (List.replicate 64 5) (fun _ => NOTIFY_STOP))
        { out := { data := List.replicate 64 0, status := 1 }, mboxCalls := 0 }
        NOTIFY_DONE 0).1 =
      { out := { data := List.replicate 64 0, status := 1 }, mboxCalls := 0 } :=
  ⟨by decide,
   ((notif_priority_shmem_first _ _ _).2.2 (by decide)).1,
   ((notif_priority_shmem_first _ _ _).2.2 (by decide)).2⟩

/-- C3 witness: the theorem applied to concrete envelopes with tags 20
(rejected) and 1 (PING, dispatched successfully). -/
theorem msg_process_dispatch_witness :
    hpsc_msg_process (20 :: List.replicate 63 0) { sent := [] } =
      ({ sent := [] }, -(EINVAL : Int)) ∧
    (hpsc_msg_process (1 :: List.replicate 63 0) { sent := [] }).2 = 0 :=
  ⟨(msg_process_dispatch (20 :: List.replicate 63 0) { sent := [] }
      (by decide)).1 (by decide),
   ((msg_process_dispatch (1 :: List.replicate 63 0) { sent := [] }
      (by decide)).2 (by decide)).2⟩

/-- C4 witness: the theorem applied to a concrete PING envelope. -/
theorem ping_echo_witness :
    ∃ p, hpsc_msg_process (1 :: List.replicate 63 9) { sent := [] } =
        ({ sent := [p] }, 0) ∧ p.length = HPSC_MSG_SIZE ∧
        p.getD 0 0 = PONG ∧ p.drop 1 = (1 :: List.replicate 63 9).drop 1 :=
  ping_echo (1 :: List.replicate 63 9) { sent := [] } (by decide) (by decide)

/-- C5 witness: the amended theorem applied to status DOWN with a
concrete two-byte info string. -/
theorem lifecycle_roundtrip_witness :
    ∃ env, hpsc_msg_lifecycle 1 [104, 105] { sent := [] } = { sent := [env] } ∧
      (∀ s2, hpsc_msg_process env s2 = (s2, 0)) ∧
      lifecycle_decode env = (1, [104, 105]) :=
  lifecycle_roundtrip 1 [104, 105] { sent := [] } (by decide) (by decide)
    (by decide)

/-- C6 witness: the theorem applied to a concrete busy region and a
concrete free region. -/
theorem shmem_send_busy_or_accept_witness :
    (is_new { data := List.replicate 64 0, status := 1 } = true ∧
     hpsc_msg_tp_shmem_send { data := List.replicate 64 0, status := 1 }
         (List.replicate 64 8) =
       ({ data := List.replicate 64 0, status := 1 },
        NOTIFY_STOP_MASK ||| EAGAIN)) ∧
    (is_new { data := List.replicate 64 0, status := 2 } = false ∧
     hpsc_msg_tp_shmem_send { data := List.replicate 64 0, status := 2 }
         (List.replicate 64 8) =
       ({ data := List.replicate 64 8,
          status := 2 ||| HPSC_SHMEM_STATUS_BIT_NEW }, NOTIFY_STOP)) :=
  ⟨⟨by decide, (shmem_send_busy_or_accept _ _).1 (by decide)⟩,
   ⟨by decide, (shmem_send_busy_or_accept _ _).2 (by decide)⟩⟩

/-- C7 witness: the theorem applied to a concrete open device with a
pending rx message. -/
theorem release_pending_nack_then_detach_witness :
    (mbox_release { channel := true, message := List.replicate 64 0,
                    incoming := true, rx_msg_pending := true,
                    send_ack := false, send_rc := 0 } []).2 =
      [ChanSend.nack (-(EPIPE : Int))] ∧
    (mbox_release { channel := true, message := List.replicate 64 0,
                    incoming := true, rx_msg_pending := true,
                    send_ack := false, send_rc := 0 } []).1.channel = false ∧
    (mbox_open true false true
        (mbox_release { channel := true, message := List.replicate 64 0,
                        incoming := true, rx_msg_pending := true,
                        send_ack := false, send_rc := 0 } []).1).2 = 0 ∧
    (mbox_open true false true
        (mbox_release { channel := true, message := List.replicate 64 0,
                        incoming := true, rx_msg_pending := true,
                        send_ack := false, send_rc := 0 } []).1).1.channel =
      true :=
  ⟨(release_pending_nack_then_detach _ _ (by decide) (by decide)).1,
   (release_pending_nack_then_detach _ _ (by decide) (by decide)).2.1,
   ((release_pending_nack_then_detach _ _ (by decide) (by decide)).2.2
      true false).1,
   ((release_pending_nack_then_detach _ _ (by decide) (by decide)).2.2
      true false).2⟩

/-- C9 witness: the amended theorem applied to a concrete mismatching
CONFIG (stored dest 9 against expected 2, rejected) and a concrete
matching CONFIG (accepted, interrupts enabled). -/
theorem startup_verify_direction_sensitive_witness :
    hpsc_mbox_startup { owner := 0, src := 1, dest := 2 }
        { config := (5 <<< 16) ||| (9 <<< 24), int_enable := 0 } 0 true true 0 1 =
      ({ config := (5 <<< 16) ||| (9 <<< 24), int_enable := 0 },
       -(EBUSY : Int)) ∧
    hpsc_mbox_startup { owner := 0, src := 1, dest := 2 }
        { config := (1 <<< 16) ||| (2 <<< 24), int_enable := 0 } 0 true true 0 1 =
      ({ config := (1 <<< 16) ||| (2 <<< 24),
         int_enable := 0 ||| HPSC_MBOX_INT_A 0 ||| HPSC_MBOX_INT_B 1 }, 0) :=
  ⟨(startup_verify_direction_sensitive 1 2
      { config := (5 <<< 16) ||| (9 <<< 24), int_enable := 0 } 0 true true 0 1
      (by decide) (by decide)).1 (by decide),
   (startup_verify_direction_sensitive 1 2
      { config := (1 <<< 16) ||| (2 <<< 24), int_enable := 0 } 0 true true 0 1
      (by decide) (by decide)).2 (by decide)⟩

/-- C10 witness: the theorem applied to a concrete device holding a
pending message when a second message arrives. -/
theorem rx_overflow_nack_keeps_pending_witness :
    mbox_received (List.replicate 64 4)
        { channel := true, message := List.replicate 64 3, incoming := true,
          rx_msg_pending := true, send_ack := false, send_rc := 0 } [] =
      ({ channel := true, message := List.replicate 64 3, incoming := true,
         rx_msg_pending := true, send_ack := false, send_rc := 0 },
       [ChanSend.nack (-(ENOBUFS : Int))]) ∧
    (mbox_read
        (mbox_received (List.replicate 64 4)
            { channel := true, message := List.replicate 64 3,
              incoming := true, rx_msg_pending := true, send_ack := false,
              send_rc := 0 } []).1
        (mbox_received (List.replicate 64 4)
            { channel := true, message := List.replicate 64 3,
              incoming := true, rx_msg_pending := true, send_ack := false,
              send_rc := 0 } []).2).2.2 =
      ReadResult.bytes (List.replicate 64 3) :=
  ⟨(rx_overflow_nack_keeps_pending _ _ _ (by decide) (by decide) (by decide)).1,
   (rx_overflow_nack_keeps_pending _ _ _ (by decide) (by decide) (by decide)).2⟩
